import Mathlib

/-
Verification of the immerseindia dashboard client: a shallow embedding of
the data model (App.tsx), the REST client layer (services/api.ts), the
per-component collection caches (ExperienceManager, ItineraryManager,
ImageManager) and the bulk fetch / session logic of the App component.
Asynchronous remote calls are embedded by passing each call result
explicitly (Except for fallible calls); browser storage is an explicit
record; component state updates are explicit state-passing functions.
-/

namespace ImmerseIndia

/-! ## Data model, from the exported types of App.tsx -/

inductive Region where
  | north
  | south
  | east
  | west
deriving DecidableEq

structure Experience where
  id : String
  destination : String
  region : Region
  title : String
  description : String
  highlights : List String
  imageUrl : Option String
  createdAt : Nat
deriving DecidableEq

structure ItineraryDay where
  day : Nat
  activities : List String
deriving DecidableEq

structure Itinerary where
  id : String
  destination : String
  region : Region
  title : String
  duration : String
  description : Option String
  days : List ItineraryDay
  imageUrl : Option String
  createdAt : Nat
deriving DecidableEq

structure DestinationImage where
  id : String
  destination : String
  region : Region
  url : String
  caption : String
  createdAt : Nat
deriving DecidableEq

inductive UpdateType where
  | newsletter
  | travelTrend
  | newExperience
deriving DecidableEq

structure Update where
  id : String
  type : UpdateType
  title : String
  content : String
  externalUrl : Option String
  createdAt : Nat
deriving DecidableEq

structure AppData where
  experiences : List Experience
  itineraries : List Itinerary
  images : List DestinationImage
  updates : List Update
deriving DecidableEq

def emptyAppData : AppData :=
  { experiences := [], itineraries := [], images := [], updates := [] }

/-! ## Response envelopes

A list endpoint may answer with a wrapper object carrying a data field,
or with the bare item array itself.  In JavaScript, reading the data
field of a bare array yields undefined (falsy), while any present data
array and any response object are truthy (even when the array is empty).
-/

inductive ListResponse (α : Type) where
  | wrapped (data : List α)
  | bare (items : List α)
deriving DecidableEq

/-- The extraction pattern of the component fetchers: response.data with
the whole response as the fallback operand of a JS or-expression. -/
def dataOrSelf {α : Type} : ListResponse α → List α
  | .wrapped d => d
  | .bare items => items

/-- The extraction pattern of fetchAllData in App.tsx: response.data with
the empty array as the fallback operand, so a bare payload collapses
to the empty list because its data field is undefined. -/
def dataOrEmpty {α : Type} : ListResponse α → List α
  | .wrapped d => d
  | .bare _ => []

/-! ## REST client layer, from services/api.ts -/

inductive Header where
  | contentTypeJson
  | authorization (token : String)
deriving DecidableEq

/-- Either a structured JSON payload or a FormData payload, the dynamic
union accepted by the create and update functions of api.ts. -/
inductive Payload where
  | json (fields : List (String × String))
  | form (parts : List (String × String))
deriving DecidableEq

/-- Request body as actually transmitted: a multipart body holding the
FormData parts, or the text produced by JSON.stringify. -/
inductive Body where
  | multipart (parts : List (String × String))
  | jsonText (s : String)
deriving DecidableEq

def jsonQuote (s : String) : String := "\"" ++ s ++ "\""

/-- JSON.stringify on the two payload kinds.  A FormData object has no
enumerable own properties, so JSON.stringify turns it into the empty
object text. -/
def stringify : Payload → String
  | .json fields =>
      "\x7b" ++ String.intercalate ","
        (fields.map (fun kv => jsonQuote kv.1 ++ ":" ++ jsonQuote kv.2)) ++ "\x7d"
  | .form _ => "\x7b\x7d"

structure Request where
  method : String
  path : String
  headers : List Header
  body : Option Body
deriving DecidableEq

/-- getAuthHeaders from api.ts: always the JSON content type, plus the
bearer token when one is stored. -/
def getAuthHeaders (token : Option String) : List Header :=
  Header.contentTypeJson ::
    (match token with
     | some t => [Header.authorization t]
     | none => [])

structure ListParams where
  page : Option Nat := none
  limit : Option Nat := none
  region : Option String := none
  search : Option String := none

/-- Query string assembly of the getAll functions: each field is appended
only when truthy, and the sentinel region value All is skipped. -/
def queryPairs (p : ListParams) : List (String × String) :=
  (match p.page with
   | some n => if n ≠ 0 then [("page", toString n)] else []
   | none => []) ++
  (match p.limit with
   | some n => if n ≠ 0 then [("limit", toString n)] else []
   | none => []) ++
  (match p.region with
   | some r => if r ≠ "" ∧ r ≠ "All" then [("region", r)] else []
   | none => []) ++
  (match p.search with
   | some s => if s ≠ "" then [("search", s)] else []
   | none => [])

def queryString (p : ListParams) : String :=
  let pairs := queryPairs p
  if pairs.isEmpty then ""
  else "?" ++ String.intercalate "&" (pairs.map (fun kv => kv.1 ++ "=" ++ kv.2))

/-- Headers of the create and update functions of experiencesAPI and
itinerariesAPI: the bearer token when stored, and the JSON content type
only when the payload is not FormData. -/
def dualPayloadHeaders (token : Option String) (data : Payload) : List Header :=
  (match token with
   | some t => [Header.authorization t]
   | none => []) ++
  (match data with
   | .form _ => []
   | .json _ => [Header.contentTypeJson])

/-- Body of the create and update functions of experiencesAPI and
itinerariesAPI: the FormData itself, or the JSON.stringify text. -/
def dualPayloadBody (data : Payload) : Body :=
  match data with
  | .form parts => Body.multipart parts
  | .json _ => Body.jsonText (stringify data)

namespace experiencesAPI

def getAll (params : ListParams) : Request :=
  { method := "GET", path := "/experiences" ++ queryString params,
    headers := [], body := none }

def getById (id : String) : Request :=
  { method := "GET", path := "/experiences/" ++ id, headers := [], body := none }

def create (token : Option String) (data : Payload) : Request :=
  { method := "POST", path := "/experiences",
    headers := dualPayloadHeaders token data,
    body := some (dualPayloadBody data) }

def update (token : Option String) (id : String) (data : Payload) : Request :=
  { method := "PUT", path := "/experiences/" ++ id,
    headers := dualPayloadHeaders token data,
    body := some (dualPayloadBody data) }

def delete (token : Option String) (id : String) : Request :=
  { method := "DELETE", path := "/experiences/" ++ id,
    headers := getAuthHeaders token, body := none }

end experiencesAPI

namespace itinerariesAPI

def getAll (params : ListParams) : Request :=
  { method := "GET", path := "/itineraries" ++ queryString params,
    headers := [], body := none }

def getById (id : String) : Request :=
  { method := "GET", path := "/itineraries/" ++ id, headers := [], body := none }

def create (token : Option String) (data : Payload) : Request :=
  { method := "POST", path := "/itineraries",
    headers := dualPayloadHeaders token data,
    body := some (dualPayloadBody data) }

def update (token : Option String) (id : String) (data : Payload) : Request :=
  { method := "PUT", path := "/itineraries/" ++ id,
    headers := dualPayloadHeaders token data,
    body := some (dualPayloadBody data) }

def delete (token : Option String) (id : String) : Request :=
  { method := "DELETE", path := "/itineraries/" ++ id,
    headers := getAuthHeaders token, body := none }

end itinerariesAPI

namespace imagesAPI

def getAll (params : ListParams) : Request :=
  { method := "GET", path := "/images" ++ queryString params,
    headers := [], body := none }

def getById (id : String) : Request :=
  { method := "GET", path := "/images/" ++ id, headers := [], body := none }

/-- imagesAPI.create takes a FormData argument only and sends it as the
body with no content type header, adding the bearer token when stored. -/
def create (token : Option String) (parts : List (String × String)) : Request :=
  { method := "POST", path := "/images",
    headers :=
      (match token with
       | some t => [Header.authorization t]
       | none => []),
    body := some (Body.multipart parts) }

def update (token : Option String) (id : String) (parts : List (String × String)) : Request :=
  { method := "PUT", path := "/images/" ++ id,
    headers :=
      (match token with
       | some t => [Header.authorization t]
       | none => []),
    body := some (Body.multipart parts) }

def delete (token : Option String) (id : String) : Request :=
  { method := "DELETE", path := "/images/" ++ id,
    headers := getAuthHeaders token, body := none }

end imagesAPI

namespace updatesAPI

def getAll : Request :=
  { method := "GET", path := "/updates", headers := [], body := none }

def getById (id : String) : Request :=
  { method := "GET", path := "/updates/" ++ id, headers := [], body := none }

/-- updatesAPI.create always sends getAuthHeaders (which includes the
JSON content type) and always runs the payload through JSON.stringify,
whatever kind of value it receives. -/
def create (token : Option String) (data : Payload) : Request :=
  { method := "POST", path := "/updates",
    headers := getAuthHeaders token,
    body := some (Body.jsonText (stringify data)) }

def update (token : Option String) (id : String) (data : Payload) : Request :=
  { method := "PUT", path := "/updates/" ++ id,
    headers := getAuthHeaders token,
    body := some (Body.jsonText (stringify data)) }

def delete (token : Option String) (id : String) : Request :=
  { method := "DELETE", path := "/updates/" ++ id,
    headers := getAuthHeaders token, body := none }

end updatesAPI

/-! ## Response normalization, handleResponse of api.ts -/

/-- Parse outcome of the body of a non-2xx response: a JSON object with
a string error field, some other JSON value, or a body that
response.json rejects. -/
inductive ErrorBody where
  | envelope (err : String)
  | otherJson
  | unparseable
deriving DecidableEq

def httpStatusMessage (status : Nat) : String := "HTTP " ++ toString status

/-- handleResponse of api.ts.  On a non-ok response the body is parsed;
a rejected parse is replaced by an envelope carrying the text Network
error, and the thrown message is the error field when truthy (nonempty)
and the HTTP status text otherwise. -/
def handleResponse {α : Type} (ok : Bool) (status : Nat) (body : ErrorBody)
    (payload : α) : Except String α :=
  if ok then .ok payload
  else
    .error
      (match body with
       | .envelope err => if err = "" then httpStatusMessage status else err
       | .otherJson => httpStatusMessage status
       | .unparseable => "Network error")

/-! ## Component collection caches

Each manager component owns one collection in useState.  A fetch or
mutation handler is embedded as a function from the previous cached list
and the explicit results of the remote calls it awaits to the new cached
list, paired (for fetchers) with the toast message it emits, if any.
-/

/-- fetchExperiences of ExperienceManager.tsx: on success the cache is
replaced by response.data with the response itself as fallback; on
failure a toast is emitted and the cache is left as it was. -/
def fetchExperiences (old : List Experience)
    (res : Except String (ListResponse Experience)) :
    List Experience × Option String :=
  match res with
  | .ok r => (dataOrSelf r, none)
  | .error _ => (old, some "Failed to load experiences")

/-- fetchItineraries of ItineraryManager.tsx, same shape as
fetchExperiences. -/
def fetchItineraries (old : List Itinerary)
    (res : Except String (ListResponse Itinerary)) :
    List Itinerary × Option String :=
  match res with
  | .ok r => (dataOrSelf r, none)
  | .error _ => (old, some "Failed to load itineraries")

/-- fetchImages of ImageManager.tsx: on success the cache is replaced by
response.data with the response itself as fallback (the trailing empty
array operand of the source is unreachable because a response object is
always truthy); on failure a toast is emitted and the cache is reset to
the empty list by the setImages call in the catch block. -/
def fetchImages (old : List DestinationImage)
    (res : Except String (ListResponse DestinationImage)) :
    List DestinationImage × Option String :=
  match res with
  | .ok r => (dataOrSelf r, none)
  | .error _ => ([], some "Failed to load images")

/-- handleDeleteExperience of ExperienceManager.tsx: behind a window
confirm, the delete call followed on success by fetchExperiences; a
failed delete leaves the cache unchanged. -/
def handleDeleteExperience (old : List Experience) (confirmed : Bool)
    (deleteRes : Except String Unit)
    (refetchRes : Except String (ListResponse Experience)) : List Experience :=
  if confirmed then
    match deleteRes with
    | .ok _ => (fetchExperiences old refetchRes).1
    | .error _ => old
  else old

/-- handleSubmit of ExperienceManager.tsx, covering both the create and
the update branch: the remote save followed on success by
fetchExperiences; a failed save leaves the cache unchanged. -/
def handleSubmitExperience (old : List Experience)
    (saveRes : Except String Unit)
    (refetchRes : Except String (ListResponse Experience)) : List Experience :=
  match saveRes with
  | .ok _ => (fetchExperiences old refetchRes).1
  | .error _ => old

/-- handleDelete of ItineraryManager.tsx, same shape as
handleDeleteExperience. -/
def handleDeleteItinerary (old : List Itinerary) (confirmed : Bool)
    (deleteRes : Except String Unit)
    (refetchRes : Except String (ListResponse Itinerary)) : List Itinerary :=
  if confirmed then
    match deleteRes with
    | .ok _ => (fetchItineraries old refetchRes).1
    | .error _ => old
  else old

/-- handleSubmit of ItineraryManager.tsx, covering both the create and
the update branch. -/
def handleSubmitItinerary (old : List Itinerary)
    (saveRes : Except String Unit)
    (refetchRes : Except String (ListResponse Itinerary)) : List Itinerary :=
  match saveRes with
  | .ok _ => (fetchItineraries old refetchRes).1
  | .error _ => old

/-- handleDelete of ImageManager.tsx: behind a window confirm, the
delete call; on success the cache is not refetched but filtered in
place, dropping the entries whose id equals the deleted id. -/
def imagesHandleDelete (old : List DestinationImage) (id : String)
    (confirmed : Bool) (deleteRes : Except String Unit) : List DestinationImage :=
  if confirmed then
    match deleteRes with
    | .ok _ => old.filter (fun img => img.id != id)
    | .error _ => old
  else old

/-- handleUploadImage of ImageManager.tsx: the upload call (including
the success and data checks on its response body) followed on success by
fetchImages; any failure is caught, toasted, and leaves the cache
unchanged. -/
def imagesHandleUpload (old : List DestinationImage)
    (uploadRes : Except String Unit)
    (refetchRes : Except String (ListResponse DestinationImage)) :
    List DestinationImage :=
  match uploadRes with
  | .ok _ => (fetchImages old refetchRes).1
  | .error _ => old

/-- The update branch of handleSubmit of ImageManager.tsx: the PUT call
followed on success by fetchImages; any failure leaves the cache
unchanged. -/
def imagesHandleUpdate (old : List DestinationImage)
    (saveRes : Except String Unit)
    (refetchRes : Except String (ListResponse DestinationImage)) :
    List DestinationImage :=
  match saveRes with
  | .ok _ => (fetchImages old refetchRes).1
  | .error _ => old

/-! ## App component, from App.tsx in the unnamed sources -/

inductive Role where
  | admin
  | user
deriving DecidableEq

structure User where
  email : String
  role : Role
  name : String
deriving DecidableEq

/-- The three localStorage keys the App component reads and writes. -/
structure Storage where
  token : Option String
  user : Option String
  authToken : Option String
deriving DecidableEq

structure AppState where
  user : Option User
  data : AppData
  isLoading : Bool
  connectionError : Bool
deriving DecidableEq

/-- The useState initializers of App.tsx. -/
def initialAppState : AppState :=
  { user := none, data := emptyAppData, isLoading := true, connectionError := false }

/-- fetchAllData of App.tsx.  Every one of the four getAll promises
carries its own catch handler that logs and substitutes a wrapper object
with an empty data array, so the awaited Promise.all never rejects and
the outer catch that would set the connection error flag is unreachable
from an individual fetch failure: the function returns the four
extracted lists (each via dataOrEmpty) and a connection error flag that
is the false written by the initial setConnectionError call. -/
def fetchAllData
    (experiencesRes : Except String (ListResponse Experience))
    (itinerariesRes : Except String (ListResponse Itinerary))
    (imagesRes : Except String (ListResponse DestinationImage))
    (updatesRes : Except String (ListResponse Update)) :
    AppData × Bool :=
  let eEnv := match experiencesRes with
    | .ok r => r
    | .error _ => ListResponse.wrapped []
  let iEnv := match itinerariesRes with
    | .ok r => r
    | .error _ => ListResponse.wrapped []
  let gEnv := match imagesRes with
    | .ok r => r
    | .error _ => ListResponse.wrapped []
  let uEnv := match updatesRes with
    | .ok r => r
    | .error _ => ListResponse.wrapped []
  ({ experiences := dataOrEmpty eEnv,
     itineraries := dataOrEmpty iEnv,
     images := dataOrEmpty gEnv,
     updates := dataOrEmpty uEnv },
   false)

/-- handleLogout of App.tsx: removes the user, token and authToken keys,
clears the in-memory user and data, and resets the connection error
flag; isLoading is not touched. -/
def handleLogout (st : Storage) (s : AppState) : Storage × AppState :=
  let _ := st
  (⟨none, none, none⟩,
   { user := none, data := emptyAppData, isLoading := s.isLoading,
     connectionError := false })

/-- The mount effect of App.tsx.  With both the token and the user keys
present it tries to install the token and parse the stored user,
starting fetchAllData on success (third component true); a parse failure
is caught and answered with handleLogout.  With either key absent it
only clears isLoading.  JSON.parse is passed in explicitly as the
external parse function. -/
def startup (parseUser : String → Except String User) (st : Storage) :
    Storage × AppState × Bool :=
  match st.token, st.user with
  | some tok, some raw =>
      match parseUser raw with
      | .ok u =>
          ({ st with authToken := some tok },
           { initialAppState with user := some u }, true)
      | .error _ =>
          let st1 : Storage := { st with authToken := some tok }
          let cleared := handleLogout st1 initialAppState
          (cleared.1, cleared.2, false)
  | _, _ => (st, { initialAppState with isLoading := false }, false)

/-! ## Concurrency trace model for fetchExperiences

The source keeps no in-flight record: every invocation of
fetchExperiences unconditionally sets the loading flag, invokes
experiencesAPI.getAll, awaits it, and stores the result.  An invocation
is embedded as its sequence of primitive events, and a concurrent
execution of two invocations as any interleaving of their two event
sequences that preserves the order of each.
-/

inductive FetchEvent where
  | setLoading (call : Nat) (v : Bool)
  | requestStart (call : Nat)
  | requestDone (call : Nat)
  | setCache (call : Nat)
deriving DecidableEq

/-- The event sequence of one fetchExperiences invocation, from the
source: setIsLoading true, the getAll request (start, completion), the
setExperiences store, setIsLoading false in the finally block. -/
def fetchExperiencesTrace (call : Nat) : List FetchEvent :=
  [.setLoading call true, .requestStart call, .requestDone call,
   .setCache call, .setLoading call false]

inductive Interleaving : List FetchEvent → List FetchEvent → List FetchEvent → Prop where
  | nil : Interleaving [] [] []
  | left {x : FetchEvent} {xs ys zs : List FetchEvent} :
      Interleaving xs ys zs → Interleaving (x :: xs) ys (x :: zs)
  | right {y : FetchEvent} {xs ys zs : List FetchEvent} :
      Interleaving xs ys zs → Interleaving xs (y :: ys) (y :: zs)

/-- Number of requests issued along a trace. -/
def requestCount : List FetchEvent → Nat
  | [] => 0
  | e :: t =>
      (match e with
       | .requestStart _ => 1
       | _ => 0) + requestCount t

/-- Net number of started minus completed requests along a trace. -/
def netStarts : List FetchEvent → Int
  | [] => 0
  | e :: t =>
      (match e with
       | .requestStart _ => 1
       | .requestDone _ => -1
       | _ => 0) + netStarts t

/-- Number of requests outstanding after the first k events. -/
def outstanding (t : List FetchEvent) (k : Nat) : Int :=
  netStarts (t.take k)

/-- One concrete schedule of two overlapping fetchExperiences calls:
the second call starts before the first request completes. -/
def twoFetchSchedule : List FetchEvent :=
  [.setLoading 1 true, .requestStart 1,
   .setLoading 2 true, .requestStart 2,
   .requestDone 1, .setCache 1, .setLoading 1 false,
   .requestDone 2, .setCache 2, .setLoading 2 false]

/-! ## ImageWithFallback, from components/figma/ImageWithFallback.tsx -/

structure ImgState where
  imgSrc : String
  hasError : Bool
deriving DecidableEq

def initImgState (src : String) : ImgState := { imgSrc := src, hasError := false }

/-- handleError of ImageWithFallback: switch to the fallback source only
when no error is latched, the fallback is truthy (nonempty), and the
current source differs from the fallback. -/
def handleError (fallbackSrc : String) (s : ImgState) : ImgState :=
  if s.hasError = false ∧ fallbackSrc ≠ "" ∧ s.imgSrc ≠ fallbackSrc then
    { imgSrc := fallbackSrc, hasError := true }
  else s

/-- handleLoad of ImageWithFallback: clear the error latch. -/
def handleLoad (s : ImgState) : ImgState := { s with hasError := false }

inductive ImgEvent where
  | error
  | load
deriving DecidableEq

def stepImg (fallbackSrc : String) (s : ImgState) : ImgEvent → ImgState
  | .error => handleError fallbackSrc s
  | .load => handleLoad s

/-- Number of times the displayed source changes along an event
sequence. -/
def switchCount (fallbackSrc : String) : ImgState → List ImgEvent → Nat
  | _, [] => 0
  | s, e :: es =>
      let s2 := stepImg fallbackSrc s e
      (if s2.imgSrc ≠ s.imgSrc then 1 else 0) + switchCount fallbackSrc s2 es

/-! ## Sample items for concrete evaluations -/

def expGoa : Experience :=
  { id := "e1", destination := "Goa", region := .west,
    title := "Coastal Paradise", description := "Beaches",
    highlights := ["Beach hopping"], imageUrl := none, createdAt := 0 }

def itinLadakh : Itinerary :=
  { id := "i1", destination := "Ladakh", region := .north,
    title := "High Passes", duration := "7 Days", description := none,
    days := [{ day := 1, activities := ["Arrival"] }],
    imageUrl := none, createdAt := 0 }

def imgGoa : DestinationImage :=
  { id := "a", destination := "Goa", region := .west,
    url := "https://img/goa.jpg", caption := "Beach", createdAt := 0 }

def imgKerala : DestinationImage :=
  { id := "b", destination := "Kerala", region := .south,
    url := "https://img/kerala.jpg", caption := "Backwaters", createdAt := 0 }

def updNews : Update :=
  { id := "u1", type := .newsletter, title := "News", content := "c",
    externalUrl := none, createdAt := 0 }

/-! ## Helper lemmas -/

theorem requestCount_interleaving {a b t : List FetchEvent}
    (h : Interleaving a b t) :
    requestCount t = requestCount a + requestCount b := by
  induction h with
  | nil => rfl
  | left _ ih => simp only [requestCount]; omega
  | right _ ih => simp only [requestCount]; omega

theorem twoFetchSchedule_interleaving :
    Interleaving (fetchExperiencesTrace 1) (fetchExperiencesTrace 2)
      twoFetchSchedule :=
  .left (.left (.right (.right (.left (.left (.left
    (.right (.right (.right .nil)))))))))

theorem switchCount_eq_zero_of_fallback (fallbackSrc : String) :
    ∀ (es : List ImgEvent) (s : ImgState), s.imgSrc = fallbackSrc →
      switchCount fallbackSrc s es = 0 := by
  intro es
  induction es with
  | nil => intro s _; rfl
  | cons e es ih =>
    intro s h
    cases e with
    | error =>
      have hstep : stepImg fallbackSrc s .error = s := by
        simp [stepImg, handleError, h]
      simp [switchCount, hstep]
      exact ih s h
    | load =>
      have himg : (stepImg fallbackSrc s .load).imgSrc = s.imgSrc := rfl
      simp [switchCount, himg]
      exact ih _ h

theorem switchCount_le_one (fallbackSrc : String) :
    ∀ (es : List ImgEvent) (s : ImgState), switchCount fallbackSrc s es ≤ 1 := by
  intro es
  induction es with
  | nil => intro s; simp [switchCount]
  | cons e es ih =>
    intro s
    cases e with
    | load =>
      have himg : (stepImg fallbackSrc s .load).imgSrc = s.imgSrc := rfl
      simp [switchCount, himg]
      exact ih _
    | error =>
      by_cases hg : s.hasError = false ∧ fallbackSrc ≠ "" ∧ s.imgSrc ≠ fallbackSrc
      · have hstep : stepImg fallbackSrc s .error =
            { imgSrc := fallbackSrc, hasError := true } := by
          simp [stepImg, handleError, hg]
        have h0 : switchCount fallbackSrc
            { imgSrc := fallbackSrc, hasError := true } es = 0 :=
          switchCount_eq_zero_of_fallback fallbackSrc es _ rfl
        simp [switchCount, hstep, h0]
        split <;> omega
      · have hstep : stepImg fallbackSrc s .error = s := by
          simp only [stepImg, handleError, if_neg hg]
        simp [switchCount, hstep]
        exact ih _

/-! ## Claim C1: mutate-then-refetch -/

/-- C1 is false as stated: after a successful delete in ImageManager the
cached list is filtered in place rather than replaced by a re-fetched
server list.  With the identical remote interaction (a successful delete
of id a), two different previous caches give two different new caches,
so the result cannot equal any single re-fetched server list; moreover
the result is exactly the filtered old cache. -/
theorem c1_counterexample :
    imagesHandleDelete [imgGoa] "a" true (.ok ()) = [] ∧
    imagesHandleDelete [imgGoa, imgKerala] "a" true (.ok ()) = [imgKerala] ∧
    imagesHandleDelete [imgGoa] "a" true (.ok ()) ≠
      imagesHandleDelete [imgGoa, imgKerala] "a" true (.ok ()) := by
  refine ⟨?_, ?_, ?_⟩ <;> decide

/-- C1 amended: every successful mutation handler in the provided
components replaces the cached collection with the re-fetched list
(independently of the previous cache), except the delete handler of
ImageManager, which patches the cache locally, keeping exactly the
previously cached items whose id differs from the deleted id. -/
theorem c1_amended :
    (∀ (old : List Experience) (env : ListResponse Experience),
        handleDeleteExperience old true (.ok ()) (.ok env) = dataOrSelf env) ∧
    (∀ (old : List Experience) (env : ListResponse Experience),
        handleSubmitExperience old (.ok ()) (.ok env) = dataOrSelf env) ∧
    (∀ (old : List Itinerary) (env : ListResponse Itinerary),
        handleDeleteItinerary old true (.ok ()) (.ok env) = dataOrSelf env) ∧
    (∀ (old : List Itinerary) (env : ListResponse Itinerary),
        handleSubmitItinerary old (.ok ()) (.ok env) = dataOrSelf env) ∧
    (∀ (old : List DestinationImage) (env : ListResponse DestinationImage),
        imagesHandleUpload old (.ok ()) (.ok env) = dataOrSelf env) ∧
    (∀ (old : List DestinationImage) (env : ListResponse DestinationImage),
        imagesHandleUpdate old (.ok ()) (.ok env) = dataOrSelf env) ∧
    (∀ (old : List DestinationImage) (id : String) (x : DestinationImage),
        x ∈ imagesHandleDelete old id true (.ok ()) ↔ x ∈ old ∧ x.id ≠ id) := by
  refine ⟨fun _ _ => rfl, fun _ _ => rfl, fun _ _ => rfl, fun _ _ => rfl,
    fun _ _ => rfl, fun _ _ => rfl, ?_⟩
  intro old id x
  simp [imagesHandleDelete, List.mem_filter, bne_iff_ne]

/-! ## Claim C2: refresh failure preserves the cache -/

/-- C2 is false as stated: a failed fetchImages does not leave the
previously cached value untouched, it resets the images cache to the
empty list (and the error is toasted, not re-raised). -/
theorem c2_counterexample :
    (fetchImages [imgGoa] (.error "NetworkError")).1 = [] ∧
    ([] : List DestinationImage) ≠ [imgGoa] := by
  exact ⟨rfl, by decide⟩

/-- C2 amended: a refresh failure leaves the experiences and itineraries
caches unchanged, but resets the images cache to the empty list; in all
three components the causing error is converted into a toast message
rather than re-raised to the caller. -/
theorem c2_amended :
    (∀ (old : List Experience) (e : String),
        fetchExperiences old (.error e) = (old, some "Failed to load experiences")) ∧
    (∀ (old : List Itinerary) (e : String),
        fetchItineraries old (.error e) = (old, some "Failed to load itineraries")) ∧
    (∀ (old : List DestinationImage) (e : String),
        fetchImages old (.error e) = ([], some "Failed to load images")) :=
  ⟨fun _ _ => rfl, fun _ _ => rfl, fun _ _ => rfl⟩

/-! ## Claim C3: independent failure handling in the bulk fetch -/

/-- C3 is false as stated: when exactly one of the four fetches fails,
the failing collection is set to the empty list and the other three hold
their fetched values, but the connection error flag is false, not true,
because every individual getAll failure is swallowed by its own catch
handler before Promise.all sees it. -/
theorem c3_counterexample :
    fetchAllData (.error "NetworkError") (.ok (.wrapped [itinLadakh]))
        (.ok (.wrapped [imgGoa])) (.ok (.wrapped [updNews])) =
      ({ experiences := [], itineraries := [itinLadakh], images := [imgGoa],
         updates := [updNews] }, false) ∧
    false ≠ true := by
  exact ⟨rfl, by decide⟩

/-- C3 amended: each failure in fetchAllData is caught independently,
the failing collections land empty while wrapped successes keep their
fetched values, but the aggregated connection error flag is always
false, whatever subset of the four fetches fails. -/
theorem c3_amended :
    (∀ (a : Except String (ListResponse Experience))
        (b : Except String (ListResponse Itinerary))
        (c : Except String (ListResponse DestinationImage))
        (d : Except String (ListResponse Update)),
        (fetchAllData a b c d).2 = false) ∧
    (∀ (e : String) (b : Except String (ListResponse Itinerary))
        (c : Except String (ListResponse DestinationImage))
        (d : Except String (ListResponse Update)),
        (fetchAllData (.error e) b c d).1.experiences = []) ∧
    (∀ (l : List Experience) (b : Except String (ListResponse Itinerary))
        (c : Except String (ListResponse DestinationImage))
        (d : Except String (ListResponse Update)),
        (fetchAllData (.ok (.wrapped l)) b c d).1.experiences = l) ∧
    (∀ (a : Except String (ListResponse Experience)) (e : String)
        (c : Except String (ListResponse DestinationImage))
        (d : Except String (ListResponse Update)),
        (fetchAllData a (.error e) c d).1.itineraries = []) ∧
    (∀ (a : Except String (ListResponse Experience)) (l : List Itinerary)
        (c : Except String (ListResponse DestinationImage))
        (d : Except String (ListResponse Update)),
        (fetchAllData a (.ok (.wrapped l)) c d).1.itineraries = l) ∧
    (∀ (a : Except String (ListResponse Experience))
        (b : Except String (ListResponse Itinerary)) (e : String)
        (d : Except String (ListResponse Update)),
        (fetchAllData a b (.error e) d).1.images = []) ∧
    (∀ (a : Except String (ListResponse Experience))
        (b : Except String (ListResponse Itinerary)) (l : List DestinationImage)
        (d : Except String (ListResponse Update)),
        (fetchAllData a b (.ok (.wrapped l)) d).1.images = l) ∧
    (∀ (a : Except String (ListResponse Experience))
        (b : Except String (ListResponse Itinerary))
        (c : Except String (ListResponse DestinationImage)) (e : String),
        (fetchAllData a b c (.error e)).1.updates = []) ∧
    (∀ (a : Except String (ListResponse Experience))
        (b : Except String (ListResponse Itinerary))
        (c : Except String (ListResponse DestinationImage)) (l : List Update),
        (fetchAllData a b c (.ok (.wrapped l))).1.updates = l) :=
  ⟨fun _ _ _ _ => rfl, fun _ _ _ _ => rfl, fun _ _ _ _ => rfl,
   fun _ _ _ _ => rfl, fun _ _ _ _ => rfl, fun _ _ _ _ => rfl,
   fun _ _ _ _ => rfl, fun _ _ _ _ => rfl, fun _ _ _ _ => rfl⟩

/-! ## Claim C4: in-flight coalescing of concurrent refreshes -/

/-- C4 is false as stated: in the exhibited schedule, which is a valid
interleaving of two fetchExperiences invocations, the second request
starts while the first is still outstanding (two outstanding after the
fourth event) and two requests are issued in total, not at most one. -/
theorem c4_counterexample :
    Interleaving (fetchExperiencesTrace 1) (fetchExperiencesTrace 2)
      twoFetchSchedule ∧
    outstanding twoFetchSchedule 4 = 2 ∧
    requestCount twoFetchSchedule = 2 := by
  exact ⟨twoFetchSchedule_interleaving, by decide, by decide⟩

/-- C4 amended: there is no coalescing at all; every execution of two
concurrent fetchExperiences invocations, under any interleaving, issues
exactly two list requests. -/
theorem c4_amended (i j : Nat) (t : List FetchEvent)
    (h : Interleaving (fetchExperiencesTrace i) (fetchExperiencesTrace j) t) :
    requestCount t = 2 := by
  have htot := requestCount_interleaving h
  simpa [fetchExperiencesTrace, requestCount] using htot

/-- C4 witness: the amended theorem applied to the concrete schedule. -/
theorem c4_witness : requestCount twoFetchSchedule = 2 :=
  c4_amended 1 2 twoFetchSchedule twoFetchSchedule_interleaving

/-! ## Claim C5: bearer token on every request -/

/-- C5 is false as stated: the list request of the experiences client is
built with an empty header list, so it never carries an Authorization
header, even when a session token is stored. -/
theorem c5_counterexample :
    (experiencesAPI.getAll { }).headers = [] ∧
    Header.authorization "t1" ∉ (experiencesAPI.getAll { }).headers := by
  constructor
  · rfl
  · simp [experiencesAPI.getAll]

/-- C5 amended: when a token is stored, every create, update and delete
request of the four collection clients carries the bearer token, but the
list and get requests of all four clients are sent with no headers at
all, hence never carry an Authorization header. -/
theorem c5_amended :
    (∀ (t : String) (p : Payload),
        Header.authorization t ∈ (experiencesAPI.create (some t) p).headers) ∧
    (∀ (t id : String) (p : Payload),
        Header.authorization t ∈ (experiencesAPI.update (some t) id p).headers) ∧
    (∀ (t id : String),
        Header.authorization t ∈ (experiencesAPI.delete (some t) id).headers) ∧
    (∀ (t : String) (p : Payload),
        Header.authorization t ∈ (itinerariesAPI.create (some t) p).headers) ∧
    (∀ (t id : String) (p : Payload),
        Header.authorization t ∈ (itinerariesAPI.update (some t) id p).headers) ∧
    (∀ (t id : String),
        Header.authorization t ∈ (itinerariesAPI.delete (some t) id).headers) ∧
    (∀ (t : String) (parts : List (String × String)),
        Header.authorization t ∈ (imagesAPI.create (some t) parts).headers) ∧
    (∀ (t id : String) (parts : List (String × String)),
        Header.authorization t ∈ (imagesAPI.update (some t) id parts).headers) ∧
    (∀ (t id : String),
        Header.authorization t ∈ (imagesAPI.delete (some t) id).headers) ∧
    (∀ (t : String) (p : Payload),
        Header.authorization t ∈ (updatesAPI.create (some t) p).headers) ∧
    (∀ (t id : String) (p : Payload),
        Header.authorization t ∈ (updatesAPI.update (some t) id p).headers) ∧
    (∀ (t id : String),
        Header.authorization t ∈ (updatesAPI.delete (some t) id).headers) ∧
    (∀ (params : ListParams), (experiencesAPI.getAll params).headers = []) ∧
    (∀ (id : String), (experiencesAPI.getById id).headers = []) ∧
    (∀ (params : ListParams), (itinerariesAPI.getAll params).headers = []) ∧
    (∀ (id : String), (itinerariesAPI.getById id).headers = []) ∧
    (∀ (params : ListParams), (imagesAPI.getAll params).headers = []) ∧
    (∀ (id : String), (imagesAPI.getById id).headers = []) ∧
    updatesAPI.getAll.headers = [] ∧
    (∀ (id : String), (updatesAPI.getById id).headers = []) := by
  refine ⟨?_, ?_, ?_, ?_, ?_, ?_, ?_, ?_, ?_, ?_, ?_, ?_,
    fun _ => rfl, fun _ => rfl, fun _ => rfl, fun _ => rfl,
    fun _ => rfl, fun _ => rfl, rfl, fun _ => rfl⟩
  · intro t p; cases p <;> simp [experiencesAPI.create, dualPayloadHeaders]
  · intro t id p; cases p <;> simp [experiencesAPI.update, dualPayloadHeaders]
  · intro t id; simp [experiencesAPI.delete, getAuthHeaders]
  · intro t p; cases p <;> simp [itinerariesAPI.create, dualPayloadHeaders]
  · intro t id p; cases p <;> simp [itinerariesAPI.update, dualPayloadHeaders]
  · intro t id; simp [itinerariesAPI.delete, getAuthHeaders]
  · intro t parts; simp [imagesAPI.create]
  · intro t id parts; simp [imagesAPI.update]
  · intro t id; simp [imagesAPI.delete, getAuthHeaders]
  · intro t p; simp [updatesAPI.create, getAuthHeaders]
  · intro t id p; simp [updatesAPI.update, getAuthHeaders]
  · intro t id; simp [updatesAPI.delete, getAuthHeaders]

/-! ## Claim C6: both envelope shapes accepted -/

/-- C6 is false as stated: fetchAllData extracts the data field with the
empty array as fallback, so a bare (unwrapped) experiences payload
collapses to the empty list instead of the payload item sequence. -/
theorem c6_counterexample :
    (fetchAllData (.ok (.bare [expGoa])) (.ok (.wrapped []))
        (.ok (.wrapped [])) (.ok (.wrapped []))).1.experiences = [] ∧
    ([] : List Experience) ≠ [expGoa] := by
  exact ⟨rfl, by decide⟩

/-- C6 amended: the component fetchers extract the same item sequence
from both envelope shapes, but fetchAllData in the App component accepts
only the wrapped shape and collapses a bare payload to the empty list. -/
theorem c6_amended :
    (∀ (old l : List Experience), (fetchExperiences old (.ok (.wrapped l))).1 = l) ∧
    (∀ (old l : List Experience), (fetchExperiences old (.ok (.bare l))).1 = l) ∧
    (∀ (old l : List Itinerary), (fetchItineraries old (.ok (.wrapped l))).1 = l) ∧
    (∀ (old l : List Itinerary), (fetchItineraries old (.ok (.bare l))).1 = l) ∧
    (∀ (old l : List DestinationImage), (fetchImages old (.ok (.wrapped l))).1 = l) ∧
    (∀ (old l : List DestinationImage), (fetchImages old (.ok (.bare l))).1 = l) ∧
    (∀ (l : List Experience) (b : Except String (ListResponse Itinerary))
        (c : Except String (ListResponse DestinationImage))
        (d : Except String (ListResponse Update)),
        (fetchAllData (.ok (.wrapped l)) b c d).1.experiences = l) ∧
    (∀ (l : List Experience) (b : Except String (ListResponse Itinerary))
        (c : Except String (ListResponse DestinationImage))
        (d : Except String (ListResponse Update)),
        (fetchAllData (.ok (.bare l)) b c d).1.experiences = []) :=
  ⟨fun _ _ => rfl, fun _ _ => rfl, fun _ _ => rfl, fun _ _ => rfl,
   fun _ _ => rfl, fun _ _ => rfl, fun _ _ _ _ => rfl, fun _ _ _ _ => rfl⟩

/-! ## Claim C7: multipart versus JSON encoding -/

/-- C7 is false as stated: the updates client runs every payload through
JSON.stringify with the JSON content type header, so a FormData payload
handed to updatesAPI.create is sent as the JSON text of an empty object
with a JSON content type, not as a multipart body. -/
theorem c7_counterexample :
    (updatesAPI.create (some "t1") (Payload.form [("image", "file.jpg")])).body =
      some (Body.jsonText "\x7b\x7d") ∧
    Header.contentTypeJson ∈
      (updatesAPI.create (some "t1") (Payload.form [("image", "file.jpg")])).headers := by
  constructor
  · rfl
  · simp [updatesAPI.create, getAuthHeaders]

/-- C7 amended: for the experiences, itineraries and images clients a
FormData payload is sent as a multipart body with no JSON content type
and a JSON payload as its JSON serialization with the JSON content type,
and the two encodings are never mixed; the updates client however always
sends the JSON serialization of its payload with the JSON content type,
whatever kind of payload it receives. -/
theorem c7_amended :
    (∀ (tok : Option String) (parts : List (String × String)),
        (experiencesAPI.create tok (.form parts)).body = some (Body.multipart parts) ∧
        Header.contentTypeJson ∉ (experiencesAPI.create tok (.form parts)).headers) ∧
    (∀ (tok : Option String) (fields : List (String × String)),
        (experiencesAPI.create tok (.json fields)).body =
          some (Body.jsonText (stringify (.json fields))) ∧
        Header.contentTypeJson ∈ (experiencesAPI.create tok (.json fields)).headers) ∧
    (∀ (tok : Option String) (id : String) (parts : List (String × String)),
        (experiencesAPI.update tok id (.form parts)).body = some (Body.multipart parts) ∧
        Header.contentTypeJson ∉ (experiencesAPI.update tok id (.form parts)).headers) ∧
    (∀ (tok : Option String) (id : String) (fields : List (String × String)),
        (experiencesAPI.update tok id (.json fields)).body =
          some (Body.jsonText (stringify (.json fields))) ∧
        Header.contentTypeJson ∈ (experiencesAPI.update tok id (.json fields)).headers) ∧
    (∀ (tok : Option String) (parts : List (String × String)),
        (itinerariesAPI.create tok (.form parts)).body = some (Body.multipart parts) ∧
        Header.contentTypeJson ∉ (itinerariesAPI.create tok (.form parts)).headers) ∧
    (∀ (tok : Option String) (fields : List (String × String)),
        (itinerariesAPI.create tok (.json fields)).body =
          some (Body.jsonText (stringify (.json fields))) ∧
        Header.contentTypeJson ∈ (itinerariesAPI.create tok (.json fields)).headers) ∧
    (∀ (tok : Option String) (id : String) (parts : List (String × String)),
        (itinerariesAPI.update tok id (.form parts)).body = some (Body.multipart parts) ∧
        Header.contentTypeJson ∉ (itinerariesAPI.update tok id (.form parts)).headers) ∧
    (∀ (tok : Option String) (id : String) (fields : List (String × String)),
        (itinerariesAPI.update tok id (.json fields)).body =
          some (Body.jsonText (stringify (.json fields))) ∧
        Header.contentTypeJson ∈ (itinerariesAPI.update tok id (.json fields)).headers) ∧
    (∀ (tok : Option String) (parts : List (String × String)),
        (imagesAPI.create tok parts).body = some (Body.multipart parts) ∧
        Header.contentTypeJson ∉ (imagesAPI.create tok parts).headers) ∧
    (∀ (tok : Option String) (id : String) (parts : List (String × String)),
        (imagesAPI.update tok id parts).body = some (Body.multipart parts) ∧
        Header.contentTypeJson ∉ (imagesAPI.update tok id parts).headers) ∧
    (∀ (tok : Option String) (p : Payload),
        (updatesAPI.create tok p).body = some (Body.jsonText (stringify p)) ∧
        Header.contentTypeJson ∈ (updatesAPI.create tok p).headers) ∧
    (∀ (tok : Option String) (id : String) (p : Payload),
        (updatesAPI.update tok id p).body = some (Body.jsonText (stringify p)) ∧
        Header.contentTypeJson ∈ (updatesAPI.update tok id p).headers) := by
  refine ⟨?_, ?_, ?_, ?_, ?_, ?_, ?_, ?_, ?_, ?_, ?_, ?_⟩
  · intro tok parts
    exact ⟨rfl, by cases tok <;> simp [experiencesAPI.create, dualPayloadHeaders]⟩
  · intro tok fields
    exact ⟨rfl, by cases tok <;> simp [experiencesAPI.create, dualPayloadHeaders]⟩
  · intro tok id parts
    exact ⟨rfl, by cases tok <;> simp [experiencesAPI.update, dualPayloadHeaders]⟩
  · intro tok id fields
    exact ⟨rfl, by cases tok <;> simp [experiencesAPI.update, dualPayloadHeaders]⟩
  · intro tok parts
    exact ⟨rfl, by cases tok <;> simp [itinerariesAPI.create, dualPayloadHeaders]⟩
  · intro tok fields
    exact ⟨rfl, by cases tok <;> simp [itinerariesAPI.create, dualPayloadHeaders]⟩
  · intro tok id parts
    exact ⟨rfl, by cases tok <;> simp [itinerariesAPI.update, dualPayloadHeaders]⟩
  · intro tok id fields
    exact ⟨rfl, by cases tok <;> simp [itinerariesAPI.update, dualPayloadHeaders]⟩
  · intro tok parts
    exact ⟨rfl, by cases tok <;> simp [imagesAPI.create]⟩
  · intro tok id parts
    exact ⟨rfl, by cases tok <;> simp [imagesAPI.update]⟩
  · intro tok p
    exact ⟨rfl, by simp [updatesAPI.create, getAuthHeaders]⟩
  · intro tok id p
    exact ⟨rfl, by simp [updatesAPI.update, getAuthHeaders]⟩

/-! ## Claim C8: error envelope decoding -/

/-- C8 is false as stated: a non-2xx response whose body decodes to the
error envelope carrying the empty string is surfaced as the HTTP status
text, not as the (empty) error string of the envelope, because the
source tests the decoded field for truthiness. -/
theorem c8_counterexample :
    handleResponse (α := Unit) false 500 (.envelope "") () = .error "HTTP 500" ∧
    "HTTP 500" ≠ "" := by
  constructor
  · rfl
  · decide

/-- C8 amended: a non-2xx response is always surfaced as a thrown error
(never swallowed); the decoded error string is surfaced when it is
nonempty, an empty or missing error string yields the HTTP status text,
and an undecodable body yields the generic Network error message. -/
theorem c8_amended :
    (∀ (α : Type) (status : Nat) (p : α) (s : String), s ≠ "" →
        handleResponse false status (.envelope s) p = .error s) ∧
    (∀ (α : Type) (status : Nat) (p : α),
        handleResponse false status .unparseable p = .error "Network error") ∧
    (∀ (α : Type) (status : Nat) (p : α),
        handleResponse false status .otherJson p = .error (httpStatusMessage status)) ∧
    (∀ (α : Type) (status : Nat) (p : α),
        handleResponse false status (.envelope "") p =
          .error (httpStatusMessage status)) ∧
    (∀ (α : Type) (status : Nat) (body : ErrorBody) (p : α),
        ∃ m, handleResponse false status body p = .error m) := by
  refine ⟨?_, fun _ _ _ => rfl, fun _ _ _ => rfl, ?_, fun _ _ _ _ => ⟨_, rfl⟩⟩
  · intro α status p s hs
    simp [handleResponse, hs]
  · intro α status p
    simp [handleResponse]

/-- C8 witness: the amended theorem applied to a concrete 404 envelope. -/
theorem c8_witness :
    handleResponse (α := Unit) false 404 (.envelope "Experience not found") () =
      .error "Experience not found" :=
  c8_amended.1 Unit 404 () "Experience not found" (by decide)

/-! ## Claim C9: corrupt persisted session on startup -/

/-- C9: on startup with a stored token and a stored user string whose
parse fails, the App component clears all three persisted keys, ends
unauthenticated with empty data and no connection error, and does not
start the bulk fetch; the startup function is total, so no exception
escapes. -/
theorem c9_corrupt_session_cleared (parseUser : String → Except String User)
    (tok raw : String) (a : Option String) (err : String)
    (h : parseUser raw = .error err) :
    startup parseUser ⟨some tok, some raw, a⟩ =
      (⟨none, none, none⟩,
       { user := none, data := emptyAppData, isLoading := true,
         connectionError := false },
       false) := by
  simp [startup, h, handleLogout, initialAppState]

/-- C9 witness: a concrete corrupt stored user. -/
theorem c9_witness :
    startup (fun _ => .error "Unexpected token")
        ⟨some "t1", some "corrupt-json", none⟩ =
      (⟨none, none, none⟩,
       { user := none, data := emptyAppData, isLoading := true,
         connectionError := false },
       false) :=
  c9_corrupt_session_cleared _ "t1" "corrupt-json" none "Unexpected token" rfl

/-! ## Claim C10: at most one fallback switch -/

/-- C10: starting from any source, across any sequence of error and load
events the displayed source of ImageWithFallback changes at most once;
and any single step either leaves the source unchanged or switches it to
the fallback from a source that differs from the fallback, so a fallback
image that itself fails never triggers a further change. -/
theorem c10_fallback_switch_at_most_once :
    (∀ (fallbackSrc src : String) (events : List ImgEvent),
        switchCount fallbackSrc (initImgState src) events ≤ 1) ∧
    (∀ (fallbackSrc : String) (s : ImgState) (e : ImgEvent),
        (stepImg fallbackSrc s e).imgSrc = s.imgSrc ∨
        (s.imgSrc ≠ fallbackSrc ∧ (stepImg fallbackSrc s e).imgSrc = fallbackSrc)) := by
  constructor
  · intro fallbackSrc src events
    exact switchCount_le_one fallbackSrc events (initImgState src)
  · intro fallbackSrc s e
    cases e with
    | load => exact Or.inl rfl
    | error =>
      by_cases hg : s.hasError = false ∧ fallbackSrc ≠ "" ∧ s.imgSrc ≠ fallbackSrc
      · refine Or.inr ⟨hg.2.2, ?_⟩
        simp [stepImg, handleError, hg]
      · refine Or.inl ?_
        simp only [stepImg, handleError, if_neg hg]

end ImmerseIndia
